import Mathlib

/-!
Shallow embedding of `src/rack_inteligente.c` (Rack_inteligente_Firmware).

The firmware is a single-threaded cooperative loop on a Pico W: it polls a
door contact (GPIO 5, pull-up, inverted) and the onboard temperature sensor
(ADC channel 4), and publishes changes over MQTT.  We model:

* C floats as exact rationals (`ℚ`): the arithmetic of
  `read_rack_temperature` is embedded symbolically, with the source's
  literal constants; comparisons (`!=`) are exact equality, as in the code.
* the global mutable state (`mqtt_connected`, `last_rack_door_state`,
  `last_rack_temperature`, `broker_ip`) as a `State` structure;
* side effects (printf diagnostics, `mqtt_publish`, `mqtt_client_connect`)
  as an explicit `Action` trace emitted by each step;
* the event-driven structure (lwIP callbacks delivered during
  `cyw43_arch_poll`, plus the per-tick sensor work) as a step function over
  an `Event` type, folded over event lists by `run`;
* fallible external calls (`cyw43_arch_init`, wifi connect,
  `dns_gethostbyname`, `mqtt_publish`) by their returned error codes,
  supplied by the environment.

`MQTT_BASE_TOPIC`, `MQTT_RACK_NUMBER`, `WIFI_SSID`, … come from
`rack_inteligente.h`, which is not part of the sources; the claims only
need the topic to be a fixed compile-time string, so concrete placeholder
values are used (modelled from the spec: topic = `<base>/<device-id>`).
-/

namespace RackFw

/-- lwIP `err_t` success code `ERR_OK`. -/
def ERR_OK : Int := 0

/-- lwIP `err_t` code `ERR_INPROGRESS` (asynchronous DNS lookup started). -/
def ERR_INPROGRESS : Int := -5

/-- lwIP `mqtt_connection_status_t`: `MQTT_CONNECT_ACCEPTED` is 0; every
other status value (refused, disconnected, timeout, …) is nonzero. -/
def MQTT_CONNECT_ACCEPTED : Nat := 0

/-- `#define MQTT_BROKER_PORT 1883` -/
def MQTT_BROKER_PORT : Nat := 1883

/-- Modelled from the spec: `MQTT_BASE_TOPIC` is defined in
`rack_inteligente.h` (not in src/); the spec fixes the topic shape
`<base>/<device-id>`. A concrete placeholder base is used. -/
def MQTT_BASE_TOPIC : String := "rack"

/-- Modelled from the spec: `MQTT_RACK_NUMBER` (device identifier) is
defined in `rack_inteligente.h` (not in src/). Placeholder value. -/
def MQTT_RACK_NUMBER : String := "1"

/-- `#define MQTT_TOPIC MQTT_BASE_TOPIC"/"MQTT_RACK_NUMBER` -/
def MQTT_TOPIC : String := MQTT_BASE_TOPIC ++ "/" ++ MQTT_RACK_NUMBER

/-- `#define TEMPERATURE_UNITS 'C'` -/
def TEMPERATURE_UNITS : Char := 'C'

/-- Observable side effects of a step.  `log` is a `printf` diagnostic
line; `logDoorChanged` / `logTempChanged` are the two specific change
diagnostics of the main loop, kept separate so the trace records every
publish *attempt* (also the dropped ones) with the attempted value;
`mqttPublish` is a call into `mqtt_publish`; `mqttConnect` is a call into
`mqtt_client_connect` carrying the `mqtt_connect_client_info_t` fields. -/
inductive Action where
  | log (msg : String)
  | logDoorChanged (v : Bool)
  | logTempChanged (v : ℚ)
  | mqttPublish (topic : String) (payload : String) (qos : Nat) (retain : Nat)
  | mqttConnect (clientId : String) (keepAlive : Nat) (port : Nat)
      (clientUser clientPass willTopic willMsg : Option String)
      (willQos willRetain : Nat)
  deriving Repr, DecidableEq

/-- Is the action a call into the MQTT transport publish? -/
def Action.isPublish : Action → Bool
  | .mqttPublish _ _ _ _ => true
  | _ => false

/-- Is the action a broker connect request? -/
def Action.isConnect : Action → Bool
  | .mqttConnect _ _ _ _ _ _ _ _ _ => true
  | _ => false

/-- The firmware's global mutable variables. -/
structure State where
  mqtt_connected : Bool
  last_rack_door_state : Bool
  last_rack_temperature : ℚ
  broker_ip : Option Nat
  deriving Repr, DecidableEq

/-- Initial values of the globals:
`mqtt_connected = false`, `last_rack_door_state = false`,
`last_rack_temperature = -1.0f`, broker address unresolved. -/
def initState : State :=
  { mqtt_connected := false
    last_rack_door_state := false
    last_rack_temperature := -1
    broker_ip := none }

/-- `const float conversionFactor = 3.3f / (1 << 12);` -/
def conversionFactor : ℚ := (33 / 10) / 4096

/-- The Celsius value computed by `read_rack_temperature` from a raw ADC
sample: `adc = raw * conversionFactor;
tempC = 27.0f - (adc - 0.706f) / 0.001721f`. -/
def tempCOf (raw : ℚ) : ℚ :=
  let adc := raw * conversionFactor
  27 - (adc - 706 / 1000) / (1721 / 1000000)

/-- The Fahrenheit branch `tempC * 9 / 5 + 32`. -/
def fahrenheitOf (tempC : ℚ) : ℚ :=
  tempC * 9 / 5 + 32

/-- `float read_rack_temperature(const char unit)`: converts the raw ADC
sample and selects the unit; any selector other than `C` / `F` yields the
sentinel `-1.0f`.  The raw sample (`adc_read()`) is a parameter supplied
by the environment. -/
def read_rack_temperature (unit : Char) (raw : ℚ) : ℚ :=
  let tempC := tempCOf raw
  if unit = 'C' then tempC
  else if unit = 'F' then fahrenheitOf tempC
  else -1

/-- `snprintf` into a `char message[16]` buffer: at most 15 visible
characters are kept (plus the terminating NUL). -/
def snprintf16 (s : String) : String :=
  if s.length ≤ 15 then s else s.take 15

/-- ASCII digit for `n % 10`. -/
def digitChar (n : Nat) : Char := Char.ofNat (48 + n % 10)

/-- The two zero-padded fractional digits of `n % 100`. -/
def twoDigits (n : Nat) : String := String.mk [digitChar (n / 10), digitChar n]

/-- Model of `"%.2f"` formatting over the rational model of floats: round
to the nearest hundredth and render with exactly two fractional digits. -/
def formatFixed2 (q : ℚ) : String :=
  let c : Int := round (q * 100)
  let a : Nat := c.natAbs
  (if c < 0 then "-" else "") ++ toString (a / 100) ++ "." ++ twoDigits (a % 100)

/-- `void publish_rack_temperature(float temperature)`: when not connected,
log and return without touching the transport; otherwise format the value
with `%.2f` and publish QoS 0, non-retained, on `MQTT_TOPIC "/temperature"`.
`pubErr` is the `err_t` the transport returns for the enqueue. -/
def publish_rack_temperature (s : State) (temperature : ℚ) (pubErr : Int) :
    List Action :=
  if s.mqtt_connected = false then
    [Action.log "[MQTT] Nao conectado, nao publicando temperatura do rack"]
  else
    let topic_rack_temperature := MQTT_TOPIC ++ "/temperature"
    let message := snprintf16 (formatFixed2 temperature)
    [Action.log ("[MQTT] Publicando: topico=" ++ topic_rack_temperature ++
        ", mensagem=" ++ message),
     Action.mqttPublish topic_rack_temperature message 0 0] ++
    (if pubErr = ERR_OK then [Action.log "[MQTT] Publicacao enviada com sucesso"]
     else [Action.log "[MQTT] Erro ao publicar"])

/-- `void publish_door_state(bool pressed)`: when not connected, log and
return without touching the transport; otherwise publish `"ON"` / `"OFF"`
QoS 0, non-retained, on `MQTT_TOPIC "/door"`. -/
def publish_door_state (s : State) (pressed : Bool) (pubErr : Int) :
    List Action :=
  if s.mqtt_connected = false then
    [Action.log "[MQTT] Nao conectado, nao publicando estado da porta"]
  else
    let topic_door_state := MQTT_TOPIC ++ "/door"
    let message := if pressed then "ON" else "OFF"
    [Action.log ("[MQTT] Publicando: topico=" ++ topic_door_state ++
        ", mensagem=" ++ message),
     Action.mqttPublish topic_door_state message 0 0] ++
    (if pubErr = ERR_OK then [Action.log "[MQTT] Publicacao enviada com sucesso"]
     else [Action.log "[MQTT] Erro ao publicar"])

/-- `static void mqtt_connection_callback(...)`: `MQTT_CONNECT_ACCEPTED`
sets `mqtt_connected = true`; every other status sets it `false`. -/
def mqtt_connection_callback (s : State) (status : Nat) : State × List Action :=
  if status = MQTT_CONNECT_ACCEPTED then
    ({ s with mqtt_connected := true }, [Action.log "[MQTT] Conectado ao broker!"])
  else
    ({ s with mqtt_connected := false },
     [Action.log "[MQTT] Falha na conexao MQTT"])

/-- `void dns_check_callback(...)`: a non-null address is stored in
`broker_ip` and `mqtt_client_connect` is issued immediately with client id
`"pico-client"`, keep-alive 60, port 1883, no credentials and no
last-will; a null address only logs the failure. -/
def dns_check_callback (s : State) (ipaddr : Option Nat) : State × List Action :=
  match ipaddr with
  | some ip =>
      ({ s with broker_ip := some ip },
       [Action.log "[DNS] Resolvido",
        Action.log "[MQTT] Conectando ao broker...",
        Action.mqttConnect "pico-client" 60 MQTT_BROKER_PORT
          none none none none 0 0])
  | none => (s, [Action.log "[DNS] Falha ao resolver DNS"])

/-- Guard of the door branch of the main loop:
`rack_port_state != last_rack_door_state` where
`rack_port_state = !gpio_get(RACK_PORT_STATE)`. -/
def door_changed (s : State) (rawLevel : Bool) : Bool :=
  (!rawLevel) != s.last_rack_door_state

/-- Guard of the temperature branch of the main loop:
`rack_temperature != last_rack_temperature`. -/
def temp_changed (unit : Char) (s : State) (adcRaw : ℚ) : Bool :=
  read_rack_temperature unit adcRaw != s.last_rack_temperature

/-- Door half of one loop iteration: read the pin (inverted because of the
pull-up), and on change log, publish, and advance `last_rack_door_state`
(the advance happens unconditionally after the publish call, also when the
publish was dropped). -/
def doorStep (s : State) (rawLevel : Bool) (pubErr : Int) : State × List Action :=
  let rack_port_state := !rawLevel
  if door_changed s rawLevel then
    ({ s with last_rack_door_state := rack_port_state },
     Action.logDoorChanged rack_port_state ::
       publish_door_state s rack_port_state pubErr)
  else (s, [])

/-- Temperature half of one loop iteration: read and convert, and on change
log, publish, and advance `last_rack_temperature` (unconditionally after
the publish call, also when the publish was dropped). -/
def tempStep (unit : Char) (s : State) (adcRaw : ℚ) (pubErr : Int) :
    State × List Action :=
  let rack_temperature := read_rack_temperature unit adcRaw
  if temp_changed unit s adcRaw then
    ({ s with last_rack_temperature := rack_temperature },
     Action.logTempChanged rack_temperature ::
       publish_rack_temperature s rack_temperature pubErr)
  else (s, [])

/-- One full loop iteration body (after `cyw43_arch_poll`): door branch
then temperature branch. -/
def tickStep (unit : Char) (s : State) (rawLevel : Bool) (adcRaw : ℚ)
    (doorErr tempErr : Int) : State × List Action :=
  let d := doorStep s rawLevel doorErr
  let t := tempStep unit d.1 adcRaw tempErr
  (t.1, d.2 ++ t.2)

/-- Events delivered to the single-threaded loop: a sensor tick (with the
environment's raw readings and transport results), a DNS-resolution
callback, or an MQTT connection-status callback.  Callbacks fire inside
`cyw43_arch_poll`, i.e. interleaved with ticks, never concurrently. -/
inductive Event where
  | tick (rawLevel : Bool) (adcRaw : ℚ) (doorErr tempErr : Int)
  | dnsResult (addr : Option Nat)
  | connStatus (status : Nat)
  deriving Repr, DecidableEq

/-- Dispatch one event. -/
def step (unit : Char) (s : State) (e : Event) : State × List Action :=
  match e with
  | .tick lvl adc de te => tickStep unit s lvl adc de te
  | .dnsResult a => dns_check_callback s a
  | .connStatus st => mqtt_connection_callback s st

/-- Fold a list of events from a state, concatenating the action traces. -/
def run (unit : Char) (s : State) (es : List Event) : State × List Action :=
  match es with
  | [] => (s, [])
  | e :: rest =>
      let p := step unit s e
      let q := run unit p.1 rest
      (q.1, p.2 ++ q.2)

/-- Results of the fallible startup calls, supplied by the environment:
`cyw43_arch_init()` (nonzero = failure),
`cyw43_arch_wifi_connect_timeout_ms(...)` (nonzero = failure),
`dns_gethostbyname(...)` (`err_t`), and the address it writes
synchronously on the `ERR_OK` fast path. -/
structure StartupEnv where
  cyw43InitErr : Int
  wifiConnectErr : Int
  dnsErr : Int
  resolvedAddr : Nat
  deriving Repr, DecidableEq

/-- The startup sequence of `main` before the infinite loop: returns
`.error (-1)` when `main` returns `-1` without entering the loop, and
`.ok s` with the state in which the loop is entered otherwise.  On the
synchronous-DNS fast path (`ERR_OK`) the callback is invoked immediately
with the already-written address. -/
def mainStartup (env : StartupEnv) : Except Int State :=
  if env.cyw43InitErr ≠ 0 then .error (-1)
  else if env.wifiConnectErr ≠ 0 then .error (-1)
  else if env.dnsErr = ERR_OK then
    .ok (dns_check_callback initState (some env.resolvedAddr)).1
  else if env.dnsErr = ERR_INPROGRESS then .ok initState
  else .error (-1)

/-- The door-attempt trace: the attempted value of every door publish
attempt, in order (the `[BOTAO] Estado mudou para:` diagnostic is printed
exactly once per attempt, dropped or not). -/
def doorAttempts (acts : List Action) : List Bool :=
  acts.filterMap fun a =>
    match a with
    | .logDoorChanged v => some v
    | _ => none


/-- Validity of a door-attempt value sequence starting from a given
`last_rack_door_state`: each attempted value must differ from (hence, for
booleans, be the negation of) the value last remembered, which it then
becomes. -/
def attemptChain : Bool → List Bool → Bool
  | _, [] => true
  | last, v :: vs => (v == !last) && attemptChain v vs

/-! ### Helper lemmas -/

/-- A state that is connected to the broker, with default channel memory. -/
def connState : State :=
  { mqtt_connected := true
    last_rack_door_state := false
    last_rack_temperature := -1
    broker_ip := some 7 }

/-- A disconnected state whose temperature memory is `0`, so that a reading
of `-1` counts as a change. -/
def discState : State :=
  { mqtt_connected := false
    last_rack_door_state := false
    last_rack_temperature := 0
    broker_ip := none }

theorem digitChar_isDigit (n : Nat) : (digitChar n).isDigit = true := by
  have h : n % 10 < 10 := Nat.mod_lt _ (by norm_num)
  have hd : ∀ m < 10, (Char.ofNat (48 + m)).isDigit = true := by decide
  exact hd _ h

theorem publish_rack_temperature_publishes (s : State) (t : ℚ) (err : Int)
    (h : s.mqtt_connected = true) :
    publish_rack_temperature s t err =
      [Action.log ("[MQTT] Publicando: topico=" ++ (MQTT_TOPIC ++ "/temperature") ++
          ", mensagem=" ++ snprintf16 (formatFixed2 t)),
       Action.mqttPublish (MQTT_TOPIC ++ "/temperature") (snprintf16 (formatFixed2 t)) 0 0] ++
      (if err = ERR_OK then [Action.log "[MQTT] Publicacao enviada com sucesso"]
       else [Action.log "[MQTT] Erro ao publicar"]) := by
  simp [publish_rack_temperature, h]

theorem publish_door_state_publishes (s : State) (b : Bool) (err : Int)
    (h : s.mqtt_connected = true) :
    publish_door_state s b err =
      [Action.log ("[MQTT] Publicando: topico=" ++ (MQTT_TOPIC ++ "/door") ++
          ", mensagem=" ++ (if b then "ON" else "OFF")),
       Action.mqttPublish (MQTT_TOPIC ++ "/door") (if b then "ON" else "OFF") 0 0] ++
      (if err = ERR_OK then [Action.log "[MQTT] Publicacao enviada com sucesso"]
       else [Action.log "[MQTT] Erro ao publicar"]) := by
  simp [publish_door_state, h]

/-! ### Claims -/

/-- **C3.** `read_rack_temperature` computes
`tempC = 27.0 - (raw * 3.3 / 4096 - 0.706) / 0.001721`, returns it for
unit `C`, returns `tempC * 9 / 5 + 32` for unit `F` (so `tempC = 20` maps
to `68`), and returns exactly `-1.0` for every other unit selector,
regardless of the sample. -/
theorem read_rack_temperature_spec (raw : ℚ) (u : Char) :
    read_rack_temperature 'C' raw =
      27 - (raw * (33/10) / 4096 - 706/1000) / (1721/1000000) ∧
    read_rack_temperature 'F' raw =
      (27 - (raw * (33/10) / 4096 - 706/1000) / (1721/1000000)) * 9 / 5 + 32 ∧
    fahrenheitOf 20 = 68 ∧
    (u ≠ 'C' → u ≠ 'F' → read_rack_temperature u raw = -1) := by
  refine ⟨?_, ?_, by norm_num [fahrenheitOf], ?_⟩
  · simp [read_rack_temperature, tempCOf, conversionFactor, mul_div_assoc]
  · simp [read_rack_temperature, tempCOf, fahrenheitOf, conversionFactor,
      mul_div_assoc]
  · intro hC hF
    simp [read_rack_temperature, hC, hF]

/-- Witness for C3 at the concrete selector `'X'` and sample `3`. -/
theorem read_rack_temperature_spec_witness :
    read_rack_temperature 'X' 3 = -1 :=
  (read_rack_temperature_spec 3 'X').2.2.2 (by decide) (by decide)

/-- **C6.** A resolver callback with a non-null address stores the address
and immediately issues a broker connect request with client id
`"pico-client"`, keep-alive 60, port 1883, no credentials and no
last-will; a null address produces a single diagnostic line and issues no
connect request (and nothing re-issues the resolution). -/
theorem dns_check_callback_spec (s : State) (ip : Nat) :
    (dns_check_callback s (some ip)).1.broker_ip = some ip ∧
    Action.mqttConnect "pico-client" 60 1883 none none none none 0 0 ∈
      (dns_check_callback s (some ip)).2 ∧
    (∀ a ∈ (dns_check_callback s none).2,
      a.isConnect = false ∧ a.isPublish = false) ∧
    (dns_check_callback s none).1 = s ∧
    (∃ msg, (dns_check_callback s none).2 = [Action.log msg]) := by
  refine ⟨rfl, ?_, ?_, rfl, ⟨_, rfl⟩⟩
  · simp [dns_check_callback, MQTT_BROKER_PORT]
  · intro a ha
    simp [dns_check_callback] at ha
    subst ha
    exact ⟨rfl, rfl⟩

/-- **C7.** A temperature value published while connected is sent exactly
once, at QoS 0, non-retained, on the fixed temperature topic, with payload
exactly the two-fractional-digit decimal rendering of the value (when it
fits the 16-byte buffer, which every reachable reading does); the
rendering always ends in a dot followed by exactly two ASCII digits. -/
theorem publish_rack_temperature_payload (s : State) (t : ℚ) (err : Int)
    (hconn : s.mqtt_connected = true)
    (hlen : (formatFixed2 t).length ≤ 15) :
    Action.mqttPublish (MQTT_TOPIC ++ "/temperature") (formatFixed2 t) 0 0 ∈
      publish_rack_temperature s t err ∧
    (∀ tp p q r, Action.mqttPublish tp p q r ∈ publish_rack_temperature s t err →
      tp = MQTT_TOPIC ++ "/temperature" ∧ p = formatFixed2 t ∧ q = 0 ∧ r = 0) ∧
    (∃ pre d1 d2, formatFixed2 t = pre ++ "." ++ String.mk [d1, d2] ∧
      d1.isDigit = true ∧ d2.isDigit = true) := by
  have hs : snprintf16 (formatFixed2 t) = formatFixed2 t := by
    simp [snprintf16, hlen]
  rw [publish_rack_temperature_publishes s t err hconn, hs]
  refine ⟨by simp, ?_, ?_⟩
  · intro tp p q r hmem
    rcases err.decEq ERR_OK with h | h <;>
      simp [h] at hmem <;>
      exact ⟨hmem.1, hmem.2.1, hmem.2.2.1, hmem.2.2.2⟩
  · refine ⟨(if round (t * 100) < 0 then "-" else "") ++
      toString ((round (t * 100)).natAbs / 100),
      digitChar ((round (t * 100)).natAbs % 100 / 10),
      digitChar ((round (t * 100)).natAbs % 100), ?_,
      digitChar_isDigit _, digitChar_isDigit _⟩
    simp [formatFixed2, twoDigits]

/-- Witness for C7: publishing temperature `0` from a connected state. -/
theorem publish_rack_temperature_payload_witness :
    Action.mqttPublish (MQTT_TOPIC ++ "/temperature") (formatFixed2 0) 0 0 ∈
      publish_rack_temperature connState 0 ERR_OK :=
  (publish_rack_temperature_payload connState 0 ERR_OK rfl
    (by
      have h : formatFixed2 0 = "0.00" := by
        simp [formatFixed2, twoDigits, digitChar]
        decide
      rw [h]
      decide)).1

theorem doorStep_last (s : State) (lvl : Bool) (e : Int) :
    (doorStep s lvl e).1.last_rack_door_state = !lvl := by
  by_cases h : (!lvl) = s.last_rack_door_state <;>
    simp [doorStep, door_changed, bne, h]

theorem tempStep_last (u : Char) (s : State) (adc : ℚ) (e : Int) :
    (tempStep u s adc e).1.last_rack_temperature = read_rack_temperature u adc := by
  by_cases h : read_rack_temperature u adc = s.last_rack_temperature <;>
    simp [tempStep, temp_changed, bne, h]

/-- **C1.** A publish attempt (door or temperature) made while the session
is not connected produces exactly the change diagnostic and the
"not connected" diagnostic — no `mqtt_publish` transport call — and the
channel's last-published memory is still advanced to the new value. -/
theorem dropped_attempt_spec (s : State) (lvl : Bool) (adc : ℚ)
    (de te : Int) (u : Char) (hconn : s.mqtt_connected = false) :
    ((!lvl) ≠ s.last_rack_door_state →
      (doorStep s lvl de).2 =
        [Action.logDoorChanged (!lvl),
         Action.log "[MQTT] Nao conectado, nao publicando estado da porta"] ∧
      (∀ a ∈ (doorStep s lvl de).2, a.isPublish = false) ∧
      (doorStep s lvl de).1.last_rack_door_state = !lvl) ∧
    (read_rack_temperature u adc ≠ s.last_rack_temperature →
      (tempStep u s adc te).2 =
        [Action.logTempChanged (read_rack_temperature u adc),
         Action.log "[MQTT] Nao conectado, nao publicando temperatura do rack"] ∧
      (∀ a ∈ (tempStep u s adc te).2, a.isPublish = false) ∧
      (tempStep u s adc te).1.last_rack_temperature =
        read_rack_temperature u adc) := by
  constructor
  · intro hne
    have h2 : (doorStep s lvl de).2 =
        [Action.logDoorChanged (!lvl),
         Action.log "[MQTT] Nao conectado, nao publicando estado da porta"] := by
      simp [doorStep, door_changed, bne, hne, publish_door_state, hconn]
    refine ⟨h2, ?_, doorStep_last s lvl de⟩
    intro a ha
    rw [h2] at ha
    simp at ha
    rcases ha with rfl | rfl <;> rfl
  · intro hne
    have h2 : (tempStep u s adc te).2 =
        [Action.logTempChanged (read_rack_temperature u adc),
         Action.log "[MQTT] Nao conectado, nao publicando temperatura do rack"] := by
      simp [tempStep, temp_changed, bne, hne, publish_rack_temperature, hconn]
    refine ⟨h2, ?_, tempStep_last u s adc te⟩
    intro a ha
    rw [h2] at ha
    simp at ha
    rcases ha with rfl | rfl <;> rfl

/-- Witness for C1: a disconnected state, a door change to `true`, and an
unrecognized unit selector so the reading `-1` differs from the stored
`0`. -/
theorem dropped_attempt_spec_witness :
    (doorStep discState false 0).1.last_rack_door_state = !false ∧
    (tempStep 'X' discState 5 0).1.last_rack_temperature =
      read_rack_temperature 'X' 5 := by
  have h := dropped_attempt_spec discState false 5 0 0 'X' rfl
  exact ⟨(h.1 (by decide)).2.2, (h.2 (by decide)).2.2⟩

/-- **C8.** The door reading fed to the pipeline is the logical negation of
the raw GPIO level (`last_rack_door_state` always ends a tick holding
`!rawLevel`, and any attempt logged in a tick carries `!rawLevel`), and a
door publish made while connected carries exactly the ASCII payload
`"ON"` for reading `true` and `"OFF"` for `false`, QoS 0, non-retained,
on the fixed door topic. -/
theorem door_reading_payload_spec (s : State) (lvl pressed : Bool) (e : Int)
    (hconn : s.mqtt_connected = true) :
    (doorStep s lvl e).1.last_rack_door_state = !lvl ∧
    (Action.logDoorChanged (!lvl) ∈ (doorStep s lvl e).2 ∨
      (doorStep s lvl e).2 = []) ∧
    Action.mqttPublish (MQTT_TOPIC ++ "/door") (if pressed then "ON" else "OFF")
      0 0 ∈ publish_door_state s pressed e ∧
    (∀ tp p q r, Action.mqttPublish tp p q r ∈ publish_door_state s pressed e →
      tp = MQTT_TOPIC ++ "/door" ∧ p = (if pressed then "ON" else "OFF") ∧
        q = 0 ∧ r = 0) := by
  refine ⟨doorStep_last s lvl e, ?_, ?_, ?_⟩
  · by_cases h : (!lvl) = s.last_rack_door_state
    · right
      simp [doorStep, door_changed, bne, h]
    · left
      simp [doorStep, door_changed, bne, h]
  · rw [publish_door_state_publishes s pressed e hconn]
    simp
  · intro tp p q r hmem
    rw [publish_door_state_publishes s pressed e hconn] at hmem
    rcases e.decEq ERR_OK with h | h <;>
      simp [h] at hmem <;>
      exact ⟨hmem.1, hmem.2.1, hmem.2.2.1, hmem.2.2.2⟩

/-- Witness for C8: a connected state, raw level high (reading `false`),
payload `"ON"` for a `true` reading. -/
theorem door_reading_payload_spec_witness :
    (doorStep connState true 0).1.last_rack_door_state = !true ∧
    Action.mqttPublish (MQTT_TOPIC ++ "/door") (if true then "ON" else "OFF")
      0 0 ∈ publish_door_state connState true 0 := by
  have h := door_reading_payload_spec connState true true 0 rfl
  exact ⟨h.1, h.2.2.1⟩

theorem doorStep_skip (s : State) (lvl : Bool) (e : Int)
    (h : (!lvl) = s.last_rack_door_state) : doorStep s lvl e = (s, []) := by
  simp [doorStep, door_changed, bne, h]

theorem tempStep_skip (u : Char) (s : State) (adc : ℚ) (e : Int)
    (h : read_rack_temperature u adc = s.last_rack_temperature) :
    tempStep u s adc e = (s, []) := by
  simp [tempStep, temp_changed, bne, h]

theorem doorStep_temp (s : State) (lvl : Bool) (e : Int) :
    (doorStep s lvl e).1.last_rack_temperature = s.last_rack_temperature := by
  by_cases h : (!lvl) = s.last_rack_door_state <;>
    simp [doorStep, door_changed, bne, h]

theorem doorStep_conn (s : State) (lvl : Bool) (e : Int) :
    (doorStep s lvl e).1.mqtt_connected = s.mqtt_connected := by
  by_cases h : (!lvl) = s.last_rack_door_state <;>
    simp [doorStep, door_changed, bne, h]

theorem tempStep_door (u : Char) (s : State) (adc : ℚ) (e : Int) :
    (tempStep u s adc e).1.last_rack_door_state = s.last_rack_door_state := by
  by_cases h : read_rack_temperature u adc = s.last_rack_temperature <;>
    simp [tempStep, temp_changed, bne, h]

theorem tempStep_conn (u : Char) (s : State) (adc : ℚ) (e : Int) :
    (tempStep u s adc e).1.mqtt_connected = s.mqtt_connected := by
  by_cases h : read_rack_temperature u adc = s.last_rack_temperature <;>
    simp [tempStep, temp_changed, bne, h]

theorem tickStep_post (u : Char) (s : State) (lvl : Bool) (adc : ℚ)
    (de te : Int) :
    (tickStep u s lvl adc de te).1.last_rack_door_state = !lvl ∧
    (tickStep u s lvl adc de te).1.last_rack_temperature =
      read_rack_temperature u adc := by
  constructor
  · show (tempStep u (doorStep s lvl de).1 adc te).1.last_rack_door_state = !lvl
    rw [tempStep_door]
    exact doorStep_last s lvl de
  · exact tempStep_last u (doorStep s lvl de).1 adc te

theorem run_tick_fixed (u : Char) (lvl : Bool) (adc : ℚ) (de te : Int) :
    ∀ (n : Nat) (s : State), (!lvl) = s.last_rack_door_state →
      read_rack_temperature u adc = s.last_rack_temperature →
      run u s (List.replicate n (Event.tick lvl adc de te)) = (s, []) := by
  intro n
  induction n with
  | zero => intro s _ _; rfl
  | succ k ih =>
    intro s h1 h2
    rw [List.replicate_succ]
    have hstep : step u s (Event.tick lvl adc de te) = (s, []) := by
      show tickStep u s lvl adc de te = (s, [])
      simp [tickStep, doorStep_skip s lvl de h1, tempStep_skip u s adc te h2]
    simp [run, hstep, ih s h1 h2]

/-- **C2.** Per channel, a publish is attempted on a tick exactly when the
tick's reading differs — under exact equality, floats included — from the
value of the last attempted publish; on an equal reading nothing is
emitted and the state is untouched; and repeating the same readings for
`n + 1` consecutive ticks emits exactly the first tick's attempts and
nothing thereafter. -/
theorem change_detection_spec (u : Char) (s : State) (lvl : Bool) (adc : ℚ)
    (de te : Int) (n : Nat) :
    ((doorStep s lvl de).2 = [] ↔ (!lvl) = s.last_rack_door_state) ∧
    (doorStep s lvl de = (s, []) ↔ (!lvl) = s.last_rack_door_state) ∧
    ((tempStep u s adc te).2 = [] ↔
      read_rack_temperature u adc = s.last_rack_temperature) ∧
    (tempStep u s adc te = (s, []) ↔
      read_rack_temperature u adc = s.last_rack_temperature) ∧
    (run u s (List.replicate (n + 1) (Event.tick lvl adc de te))).2 =
      (tickStep u s lvl adc de te).2 := by
  have hdoor : (doorStep s lvl de).2 = [] ↔ (!lvl) = s.last_rack_door_state := by
    by_cases h : (!lvl) = s.last_rack_door_state <;>
      simp [doorStep, door_changed, bne, h]
  have htemp : (tempStep u s adc te).2 = [] ↔
      read_rack_temperature u adc = s.last_rack_temperature := by
    by_cases h : read_rack_temperature u adc = s.last_rack_temperature <;>
      simp [tempStep, temp_changed, bne, h]
  refine ⟨hdoor, ?_, htemp, ?_, ?_⟩
  · constructor
    · intro h
      exact hdoor.mp (congrArg Prod.snd h)
    · exact doorStep_skip s lvl de
  · constructor
    · intro h
      exact htemp.mp (congrArg Prod.snd h)
    · exact tempStep_skip u s adc te
  · rw [List.replicate_succ]
    have hpost := tickStep_post u s lvl adc de te
    have hrest := run_tick_fixed u lvl adc de te n
      (tickStep u s lvl adc de te).1 hpost.1.symm hpost.2.symm
    simp [run, step, hrest]

theorem publish_door_state_no_connect (s : State) (b : Bool) (e : Int) :
    ∀ a ∈ publish_door_state s b e, a.isConnect = false := by
  intro a ha
  by_cases h : s.mqtt_connected = false <;>
    rcases e.decEq ERR_OK with he | he <;>
    simp [publish_door_state, h, he] at ha <;>
    rcases ha with rfl | rfl | rfl <;> rfl

theorem publish_rack_temperature_no_connect (s : State) (t : ℚ) (e : Int) :
    ∀ a ∈ publish_rack_temperature s t e, a.isConnect = false := by
  intro a ha
  by_cases h : s.mqtt_connected = false <;>
    rcases e.decEq ERR_OK with he | he <;>
    simp [publish_rack_temperature, h, he] at ha <;>
    rcases ha with rfl | rfl | rfl <;> rfl

theorem tickStep_no_connect (u : Char) (s : State) (lvl : Bool) (adc : ℚ)
    (de te : Int) : ∀ a ∈ (tickStep u s lvl adc de te).2, a.isConnect = false := by
  intro a ha
  have hmem : a ∈ (doorStep s lvl de).2 ∨
      a ∈ (tempStep u (doorStep s lvl de).1 adc te).2 := by
    simpa [tickStep] using List.mem_append.mp ha
  rcases hmem with hd | ht
  · by_cases h : (!lvl) = s.last_rack_door_state
    · simp [doorStep_skip s lvl de h] at hd
    · simp [doorStep, door_changed, bne, h] at hd
      rcases hd with rfl | hd
      · rfl
      · exact publish_door_state_no_connect s (!lvl) de a hd
  · set s1 := (doorStep s lvl de).1
    by_cases h : read_rack_temperature u adc = s1.last_rack_temperature
    · simp [tempStep_skip u s1 adc te h] at ht
    · simp [tempStep, temp_changed, bne, h] at ht
      rcases ht with rfl | ht
      · rfl
      · exact publish_rack_temperature_no_connect s1 _ te a ht

theorem step_preserves_conn (u : Char) (s : State) (e : Event)
    (h : ∀ st, e ≠ Event.connStatus st) :
    (step u s e).1.mqtt_connected = s.mqtt_connected := by
  cases e with
  | tick lvl adc de te =>
      show (tempStep u (doorStep s lvl de).1 adc te).1.mqtt_connected =
        s.mqtt_connected
      rw [tempStep_conn, doorStep_conn]
  | dnsResult a => cases a <;> rfl
  | connStatus st => exact absurd rfl (h st)

theorem run_preserves_conn (u : Char) :
    ∀ (es : List Event) (s : State),
      (∀ e ∈ es, ∀ st, e ≠ Event.connStatus st) →
      (run u s es).1.mqtt_connected = s.mqtt_connected := by
  intro es
  induction es with
  | nil => intro s _; rfl
  | cons e rest ih =>
      intro s h
      show (run u (step u s e).1 rest).1.mqtt_connected = s.mqtt_connected
      rw [ih (step u s e).1 (fun x hx st => h x (List.mem_cons_of_mem e hx) st),
        step_preserves_conn u s e (h e (List.mem_cons_self e rest))]

/-- **C4.** The connection callback sets the session connected exactly on
the accepted status and not-connected on every other status; the scripted
sequence resolved-then-accepted ends connected, resolved-then-rejected
ends disconnected; a connect request can only ever be emitted by a
resolver callback carrying an address, so after a rejection the session
stays disconnected across any events that deliver no further
connection-status callback (none can arrive: no connect is in flight). -/
theorem connection_state_spec (u : Char) (s : State) (st rej ip : Nat)
    (es : List Event) :
    ((mqtt_connection_callback s st).1.mqtt_connected = true ↔
      st = MQTT_CONNECT_ACCEPTED) ∧
    (run u s [Event.dnsResult (some ip),
      Event.connStatus MQTT_CONNECT_ACCEPTED]).1.mqtt_connected = true ∧
    (rej ≠ MQTT_CONNECT_ACCEPTED →
      (run u s [Event.dnsResult (some ip),
        Event.connStatus rej]).1.mqtt_connected = false) ∧
    (∀ e, (∃ a ∈ (step u s e).2, a.isConnect = true) →
      ∃ ip2, e = Event.dnsResult (some ip2)) ∧
    ((∀ e ∈ es, ∀ st2, e ≠ Event.connStatus st2) →
      (run u s es).1.mqtt_connected = s.mqtt_connected) := by
  refine ⟨?_, ?_, ?_, ?_, run_preserves_conn u es s⟩
  · by_cases h : st = MQTT_CONNECT_ACCEPTED <;>
      simp [mqtt_connection_callback, h]
  · simp [run, step, dns_check_callback, mqtt_connection_callback]
  · intro h
    simp [run, step, dns_check_callback, mqtt_connection_callback, h]
  · intro e he
    rcases he with ⟨a, ha, hconn⟩
    cases e with
    | tick lvl adc de te =>
        exact absurd hconn (by simp [tickStep_no_connect u s lvl adc de te a
          (by simpa [step] using ha)])
    | dnsResult addr =>
        cases addr with
        | none =>
            simp [step, dns_check_callback] at ha
            subst ha
            exact absurd hconn (by decide)
        | some ip2 => exact ⟨ip2, rfl⟩
    | connStatus st2 =>
        by_cases hst : st2 = MQTT_CONNECT_ACCEPTED <;>
          simp [step, mqtt_connection_callback, hst] at ha <;>
          (subst ha; exact absurd hconn (by decide))

/-- Witness for C4: resolved-then-accepted ends connected,
resolved-then-rejected (status 256) ends disconnected, and a tick leaves
the connection flag untouched. -/
theorem connection_state_spec_witness :
    (run 'C' initState [Event.dnsResult (some 7),
      Event.connStatus MQTT_CONNECT_ACCEPTED]).1.mqtt_connected = true ∧
    (run 'C' initState [Event.dnsResult (some 7),
      Event.connStatus 256]).1.mqtt_connected = false ∧
    (run 'C' initState [Event.tick true 2 0 0]).1.mqtt_connected =
      initState.mqtt_connected := by
  have h := connection_state_spec 'C' initState 0 256 7 [Event.tick true 2 0 0]
  exact ⟨h.2.1, h.2.2.1 (by decide), h.2.2.2.2 (by simp)⟩

theorem read_unknown_unit (u : Char) (hC : u ≠ 'C') (hF : u ≠ 'F') (adc : ℚ) :
    read_rack_temperature u adc = -1 := by
  simp [read_rack_temperature, hC, hF]

theorem mem_doorStep_cases (s : State) (lvl : Bool) (e : Int) (a : Action)
    (ha : a ∈ (doorStep s lvl e).2) :
    a = Action.logDoorChanged (!lvl) ∨ a ∈ publish_door_state s (!lvl) e := by
  by_cases h : (!lvl) = s.last_rack_door_state
  · simp [doorStep_skip s lvl e h] at ha
  · simp [doorStep, door_changed, bne, h] at ha
    exact ha

theorem mem_publish_door_state (s : State) (b : Bool) (e : Int) (a : Action)
    (ha : a ∈ publish_door_state s b e) :
    (∃ m, a = Action.log m) ∨
    a = Action.mqttPublish (MQTT_TOPIC ++ "/door") (if b then "ON" else "OFF")
      0 0 := by
  by_cases h : s.mqtt_connected = false <;>
    rcases e.decEq ERR_OK with he | he <;>
    simp [publish_door_state, h, he] at ha
  · exact Or.inl ⟨_, ha⟩
  · exact Or.inl ⟨_, ha⟩
  · rcases ha with rfl | rfl | rfl
    · exact Or.inl ⟨_, rfl⟩
    · exact Or.inr rfl
    · exact Or.inl ⟨_, rfl⟩
  · rcases ha with rfl | rfl | rfl
    · exact Or.inl ⟨_, rfl⟩
    · exact Or.inr rfl
    · exact Or.inl ⟨_, rfl⟩

theorem run_unknown_unit_inv (u : Char) (hC : u ≠ 'C') (hF : u ≠ 'F') :
    ∀ (es : List Event) (s : State), s.last_rack_temperature = -1 →
      (run u s es).1.last_rack_temperature = -1 ∧
      ∀ a ∈ (run u s es).2, (∀ v, a ≠ Action.logTempChanged v) ∧
        (∀ p q r, a ≠ Action.mqttPublish (MQTT_TOPIC ++ "/temperature") p q r) := by
  intro es
  induction es with
  | nil =>
      intro s hs
      exact ⟨hs, by intro a ha; simp [run] at ha⟩
  | cons e rest ih =>
      intro s hs
      have hstep : (step u s e).1.last_rack_temperature = -1 ∧
          ∀ a ∈ (step u s e).2, (∀ v, a ≠ Action.logTempChanged v) ∧
            (∀ p q r,
              a ≠ Action.mqttPublish (MQTT_TOPIC ++ "/temperature") p q r) := by
        cases e with
        | tick lvl adc de te =>
            have hd1 : (doorStep s lvl de).1.last_rack_temperature = -1 := by
              rw [doorStep_temp]; exact hs
            have hskip : tempStep u (doorStep s lvl de).1 adc te =
                ((doorStep s lvl de).1, []) :=
              tempStep_skip u _ adc te (by rw [read_unknown_unit u hC hF, hd1])
            constructor
            · show (tempStep u (doorStep s lvl de).1 adc te).1.last_rack_temperature = -1
              rw [hskip]; exact hd1
            · intro a ha
              have ha2 : a ∈ (doorStep s lvl de).2 := by
                have : (tickStep u s lvl adc de te).2 =
                    (doorStep s lvl de).2 ++ [] := by
                  show (doorStep s lvl de).2 ++
                      (tempStep u (doorStep s lvl de).1 adc te).2 = _
                  rw [hskip]
                simpa [step, this] using ha
              rcases mem_doorStep_cases s lvl de a ha2 with rfl | hp
              · exact ⟨fun v => by simp, fun p q r => by simp⟩
              · rcases mem_publish_door_state s (!lvl) de a hp with ⟨m, rfl⟩ | rfl
                · exact ⟨fun v => by simp, fun p q r => by simp⟩
                · refine ⟨fun v => by simp, fun p q r => ?_⟩
                  intro hcontra
                  have : MQTT_TOPIC ++ "/door" = MQTT_TOPIC ++ "/temperature" := by
                    injection hcontra
                  exact absurd this (by decide)
        | dnsResult addr =>
            cases addr with
            | some ip =>
                refine ⟨hs, ?_⟩
                intro a ha
                simp [step, dns_check_callback] at ha
                rcases ha with rfl | rfl | rfl <;>
                  exact ⟨fun v => by simp, fun p q r => by simp⟩
            | none =>
                refine ⟨hs, ?_⟩
                intro a ha
                simp [step, dns_check_callback] at ha
                subst ha
                exact ⟨fun v => by simp, fun p q r => by simp⟩
        | connStatus st =>
            constructor
            · show (mqtt_connection_callback s st).1.last_rack_temperature = -1
              by_cases hst : st = MQTT_CONNECT_ACCEPTED <;>
                simp [mqtt_connection_callback, hst] <;> exact hs
            · intro a ha
              by_cases hst : st = MQTT_CONNECT_ACCEPTED <;>
                simp [step, mqtt_connection_callback, hst] at ha <;>
                (subst ha
                 exact ⟨fun v => by simp, fun p q r => by simp⟩)
      have hrest := ih (step u s e).1 hstep.1
      refine ⟨hrest.1, ?_⟩
      intro a ha
      have : a ∈ (step u s e).2 ∨ a ∈ (run u (step u s e).1 rest).2 := by
        simpa [run] using ha
      rcases this with h | h
      · exact hstep.2 a h
      · exact hrest.2 a h

/-- **C5.** With a unit selector that is neither `C` nor `F`, every reading
is the sentinel `-1.0`, which is also the initial last-published
temperature, so on every reachable state the temperature change guard is
false: no temperature attempt diagnostic and no temperature publish ever
occurs, and `last_rack_temperature` stays `-1` forever. -/
theorem unknown_unit_spec (u : Char) (raw adc : ℚ) (es : List Event)
    (hC : u ≠ 'C') (hF : u ≠ 'F') :
    read_rack_temperature u raw = -1 ∧
    initState.last_rack_temperature = -1 ∧
    (run u initState es).1.last_rack_temperature = -1 ∧
    temp_changed u (run u initState es).1 adc = false ∧
    (∀ v, Action.logTempChanged v ∉ (run u initState es).2) ∧
    (∀ p q r, Action.mqttPublish (MQTT_TOPIC ++ "/temperature") p q r ∉
      (run u initState es).2) := by
  have hinv := run_unknown_unit_inv u hC hF es initState rfl
  refine ⟨read_unknown_unit u hC hF raw, rfl, hinv.1, ?_, ?_, ?_⟩
  · simp [temp_changed, bne, read_unknown_unit u hC hF adc, hinv.1]
  · intro v hv
    exact absurd rfl ((hinv.2 _ hv).1 v)
  · intro p q r hv
    exact absurd rfl ((hinv.2 _ hv).2 p q r)

/-- Witness for C5 at selector `'X'`: after a door event and a connection
acceptance, the temperature memory is still `-1` and the change guard is
still false. -/
theorem unknown_unit_spec_witness :
    (run 'X' initState [Event.tick false 4 0 0,
      Event.connStatus 0]).1.last_rack_temperature = -1 ∧
    temp_changed 'X' (run 'X' initState [Event.tick false 4 0 0,
      Event.connStatus 0]).1 3 = false := by
  have h := unknown_unit_spec 'X' 2 3 [Event.tick false 4 0 0, Event.connStatus 0]
    (by decide) (by decide)
  exact ⟨h.2.2.1, h.2.2.2.1⟩

theorem run_append_last (u : Char) :
    ∀ (es : List Event) (s : State) (e : Event),
      (run u s (es ++ [e])).1 = (step u (run u s es).1 e).1 := by
  intro es
  induction es with
  | nil => intro s e; rfl
  | cons e0 rest ih =>
      intro s e
      show (run u (step u s e0).1 (rest ++ [e])).1 = _
      rw [ih (step u s e0).1 e]
      rfl

/-- **C9.** `main` returns the failure code `-1` without entering the
sensor loop exactly when radio init fails, the initial Wi-Fi association
fails, or the synchronous DNS submission returns an error other than
`ERR_OK` / `ERR_INPROGRESS`; otherwise the loop is entered, and the loop
step function is total: after any event history it still processes the
next event (later failures are logged actions, never exits). -/
theorem main_startup_spec (env : StartupEnv) (u : Char) (s : State)
    (es : List Event) (e : Event) :
    (mainStartup env = Except.error (-1) ↔
      (env.cyw43InitErr ≠ 0 ∨ env.wifiConnectErr ≠ 0 ∨
        (env.dnsErr ≠ ERR_OK ∧ env.dnsErr ≠ ERR_INPROGRESS))) ∧
    ((env.cyw43InitErr = 0 ∧ env.wifiConnectErr = 0 ∧
        (env.dnsErr = ERR_OK ∨ env.dnsErr = ERR_INPROGRESS)) →
      ∃ st0, mainStartup env = Except.ok st0) ∧
    (run u s (es ++ [e])).1 = (step u (run u s es).1 e).1 := by
  refine ⟨?_, ?_, run_append_last u es s e⟩
  · by_cases h1 : env.cyw43InitErr = 0 <;>
      by_cases h2 : env.wifiConnectErr = 0 <;>
      by_cases h3 : env.dnsErr = ERR_OK <;>
      by_cases h4 : env.dnsErr = ERR_INPROGRESS <;>
      simp [mainStartup, h1, h2, h3, h4,
        (by decide : ERR_INPROGRESS ≠ ERR_OK)]
  · rintro ⟨h1, h2, h3⟩
    rcases h3 with h3 | h3
    · exact ⟨(dns_check_callback initState (some env.resolvedAddr)).1,
        by simp [mainStartup, h1, h2, h3]⟩
    · exact ⟨initState,
        by simp [mainStartup, h1, h2, h3,
          (by decide : ERR_INPROGRESS ≠ ERR_OK)]⟩

/-- Witness for C9: a radio-init failure is fatal; the all-success
environment enters the loop. -/
theorem main_startup_spec_witness :
    (mainStartup ⟨1, 0, 0, 5⟩ = Except.error (-1)) ∧
    (∃ st0, mainStartup ⟨0, 0, 0, 5⟩ = Except.ok st0) := by
  refine ⟨?_, ?_⟩
  · exact (main_startup_spec ⟨1, 0, 0, 5⟩ 'C' initState [] (Event.connStatus 0)).1.mpr
      (by decide)
  · exact (main_startup_spec ⟨0, 0, 0, 5⟩ 'C' initState [] (Event.connStatus 0)).2.1
      (by decide)

theorem doorAttempts_publish_door (s : State) (b : Bool) (e : Int) :
    doorAttempts (publish_door_state s b e) = [] := by
  by_cases h : s.mqtt_connected = false <;>
    rcases e.decEq ERR_OK with he | he <;>
    simp [publish_door_state, h, he, doorAttempts]

theorem doorAttempts_publish_temp (s : State) (t : ℚ) (e : Int) :
    doorAttempts (publish_rack_temperature s t e) = [] := by
  by_cases h : s.mqtt_connected = false <;>
    rcases e.decEq ERR_OK with he | he <;>
    simp [publish_rack_temperature, h, he, doorAttempts]

theorem doorAttempts_cons_doorlog (v : Bool) (l : List Action) :
    doorAttempts (Action.logDoorChanged v :: l) = v :: doorAttempts l := by
  simp [doorAttempts]

theorem doorAttempts_cons_templog (v : ℚ) (l : List Action) :
    doorAttempts (Action.logTempChanged v :: l) = doorAttempts l := by
  simp [doorAttempts]

theorem doorAttempts_tempStep (u : Char) (s : State) (adc : ℚ) (e : Int) :
    doorAttempts (tempStep u s adc e).2 = [] := by
  by_cases h : read_rack_temperature u adc = s.last_rack_temperature
  · rw [tempStep_skip u s adc e h]
    rfl
  · have h2 : (tempStep u s adc e).2 =
        Action.logTempChanged (read_rack_temperature u adc) ::
          publish_rack_temperature s (read_rack_temperature u adc) e := by
      simp [tempStep, temp_changed, bne, h]
    rw [h2, doorAttempts_cons_templog, doorAttempts_publish_temp]

theorem step_doorAttempts (u : Char) (s : State) (e : Event) :
    (doorAttempts (step u s e).2 = [] ∧
      (step u s e).1.last_rack_door_state = s.last_rack_door_state) ∨
    (doorAttempts (step u s e).2 = [!s.last_rack_door_state] ∧
      (step u s e).1.last_rack_door_state = !s.last_rack_door_state) := by
  cases e with
  | tick lvl adc de te =>
      have hsplit : doorAttempts (step u s (Event.tick lvl adc de te)).2 =
          doorAttempts (doorStep s lvl de).2 ++
          doorAttempts (tempStep u (doorStep s lvl de).1 adc te).2 := by
        show doorAttempts ((doorStep s lvl de).2 ++
          (tempStep u (doorStep s lvl de).1 adc te).2) = _
        simp [doorAttempts, List.filterMap_append]
      have hdoorlast :
          (step u s (Event.tick lvl adc de te)).1.last_rack_door_state = !lvl := by
        show (tempStep u (doorStep s lvl de).1 adc te).1.last_rack_door_state = _
        rw [tempStep_door]
        exact doorStep_last s lvl de
      by_cases h : (!lvl) = s.last_rack_door_state
      · left
        constructor
        · rw [hsplit, doorStep_skip s lvl de h, doorAttempts_tempStep]
          rfl
        · rw [hdoorlast, h]
      · right
        have hneg : (!lvl) = !s.last_rack_door_state := by
          cases lvl <;> cases hsd : s.last_rack_door_state <;>
            simp_all
        constructor
        · rw [hsplit, doorAttempts_tempStep]
          have hcons : (doorStep s lvl de).2 =
              Action.logDoorChanged (!lvl) ::
                publish_door_state s (!lvl) de := by
            simp [doorStep, door_changed, bne, h]
          have hd : doorAttempts (doorStep s lvl de).2 = [!lvl] := by
            rw [hcons, doorAttempts_cons_doorlog, doorAttempts_publish_door]
          rw [hd, hneg]
          rfl
        · rw [hdoorlast, hneg]
  | dnsResult addr =>
      left
      cases addr with
      | some ip => exact ⟨rfl, rfl⟩
      | none => exact ⟨rfl, rfl⟩
  | connStatus st =>
      left
      by_cases hst : st = MQTT_CONNECT_ACCEPTED <;>
        constructor <;>
        simp [step, mqtt_connection_callback, hst, doorAttempts]

theorem run_doorAttempts_chain (u : Char) :
    ∀ (es : List Event) (s : State),
      attemptChain s.last_rack_door_state
        (doorAttempts (run u s es).2) = true := by
  intro es
  induction es with
  | nil => intro s; rfl
  | cons e rest ih =>
      intro s
      have hsplit : doorAttempts (run u s (e :: rest)).2 =
          doorAttempts (step u s e).2 ++
          doorAttempts (run u (step u s e).1 rest).2 := by
        show doorAttempts ((step u s e).2 ++ (run u (step u s e).1 rest).2) = _
        simp [doorAttempts, List.filterMap_append]
      rcases step_doorAttempts u s e with ⟨h1, h2⟩ | ⟨h1, h2⟩
      · rw [hsplit, h1, List.nil_append]
        have := ih (step u s e).1
        rwa [h2] at this
      · rw [hsplit, h1]
        show attemptChain s.last_rack_door_state
          ((!s.last_rack_door_state) ::
            doorAttempts (run u (step u s e).1 rest).2) = true
        have := ih (step u s e).1
        rw [h2] at this
        simp [attemptChain, this]

theorem attemptChain_false_mem :
    ∀ (l1 : List Bool) (i : Bool) (l2 : List Bool),
      attemptChain i (l1 ++ false :: l2) = true → i = true ∨ true ∈ l1 := by
  intro l1
  induction l1 with
  | nil =>
      intro i l2 h
      left
      simp [attemptChain] at h
      cases i
      · exact absurd h.1 (by decide)
      · rfl
  | cons v l1' ih =>
      intro i l2 h
      right
      simp only [List.cons_append, attemptChain, Bool.and_eq_true] at h
      rcases ih v l2 h.2 with hv | hmem
      · rw [hv]
        exact List.mem_cons_self true _
      · exact List.mem_cons_of_mem v hmem

/-- **C10.** `last_rack_door_state` starts `false`, so the first door
publish attempt of any execution — dropped or sent — carries the reading
`true`, and an `OFF` attempt can only occur after an earlier `ON`
attempt. -/
theorem first_door_attempt_spec (u : Char) (es : List Event) :
    initState.last_rack_door_state = false ∧
    (∀ v vs, doorAttempts (run u initState es).2 = v :: vs → v = true) ∧
    (∀ l1 l2, doorAttempts (run u initState es).2 = l1 ++ false :: l2 →
      true ∈ l1) := by
  have hchain : attemptChain false (doorAttempts (run u initState es).2) = true :=
    run_doorAttempts_chain u es initState
  refine ⟨rfl, ?_, ?_⟩
  · intro v vs hv
    rw [hv] at hchain
    simp [attemptChain] at hchain
    exact hchain.1
  · intro l1 l2 hl
    rw [hl] at hchain
    rcases attemptChain_false_mem l1 false l2 hchain with h | h
    · exact absurd h (by decide)
    · exact h

/-- Witness for C10: two ticks produce the attempt sequence
`[ON, OFF]` — the first attempt is `ON` and the `OFF` is preceded by it. -/
theorem first_door_attempt_spec_witness :
    initState.last_rack_door_state = false ∧ true ∈ ([true] : List Bool) := by
  have h := first_door_attempt_spec 'X'
    [Event.tick false 2 0 0, Event.tick true 2 0 0]
  refine ⟨h.1, ?_⟩
  exact h.2.2 [true] [] (by decide)

end RackFw
